import Mathlib

/-!
Verification of the treasurer-tools PO3 payment-file generator.

The Python sources are shallowly embedded: text is `List Char`, Python `float`
amounts are idealized as exact rationals `ℚ`, Python `round` (round half to
even) is `pyRound`, and fallible parsing returns `Option`.  Functions keep the
source names (`format_amount`, `generate_pi00_expense`, `validate_expense`,
`process_payments`, ...).  The `src/po3` package re-exports `formatters.py`
and `validators.py`; those modules are embedded from their identical
top-level counterparts `formatters.py` and `validators.py`.
-/

/-- Text, embedded as a list of characters. -/
abbrev Chars := List Char

/-- Python `str.ljust(w)`: pad on the right with spaces up to width `w`,
never truncating. -/
def pyLjust (s : Chars) (w : Nat) : Chars :=
  s ++ List.replicate (w - s.length) ' '

/-- Python `str.zfill(w)`: pad on the left with zeros up to width `w`,
keeping a leading sign character in front. -/
def pyZfill (s : Chars) (w : Nat) : Chars :=
  match s with
  | [] => List.replicate w '0'
  | c :: rest =>
    if c = '-' ∨ c = '+' then c :: (List.replicate (w - s.length) '0' ++ rest)
    else List.replicate (w - s.length) '0' ++ s

/-- Python `str.lower()` (ASCII case folding suffices here). -/
def pyLower (s : Chars) : Chars := s.map Char.toLower

/-- Python `str.strip()`: drop leading and trailing whitespace. -/
def pyStrip (s : Chars) : Chars :=
  ((s.dropWhile Char.isWhitespace).reverse.dropWhile Char.isWhitespace).reverse

/-- Python `str(z)` for an integer: decimal digits with a leading minus sign
for negative values. -/
def pyIntStr (z : ℤ) : Chars :=
  if z < 0 then '-' :: Nat.toDigits 10 z.natAbs else Nat.toDigits 10 z.natAbs

/-- Exact rational addition, written on numerators and denominators so that
concrete values evaluate inside the kernel; `qAdd_eq` identifies it with `+`. -/
def qAdd (a b : ℚ) : ℚ :=
  Rat.divInt (a.num * (b.den : ℤ) + b.num * (a.den : ℤ)) ((a.den : ℤ) * (b.den : ℤ))

/-- Exact rational multiplication; `qMul_eq` identifies it with `*`. -/
def qMul (a b : ℚ) : ℚ :=
  Rat.divInt (a.num * b.num) ((a.den : ℤ) * (b.den : ℤ))

/-- Exact rational negation; `qNeg_eq` identifies it with `-`. -/
def qNeg (a : ℚ) : ℚ := Rat.divInt (-a.num) (a.den : ℤ)

theorem qAdd_eq (a b : ℚ) : qAdd a b = a + b := by
  have ha : ((a.den : ℤ)) ≠ 0 := Int.natCast_ne_zero.mpr a.den_nz
  have hb : ((b.den : ℤ)) ≠ 0 := Int.natCast_ne_zero.mpr b.den_nz
  rw [qAdd, ← Rat.divInt_add_divInt _ _ ha hb, Rat.num_divInt_den, Rat.num_divInt_den]

theorem qMul_eq (a b : ℚ) : qMul a b = a * b :=
  calc qMul a b
      = Rat.divInt a.num (a.den : ℤ) * Rat.divInt b.num (b.den : ℤ) :=
        (Rat.divInt_mul_divInt' _ _ _ _).symm
    _ = a * b := by rw [Rat.num_divInt_den, Rat.num_divInt_den]

theorem qNeg_eq (a : ℚ) : qNeg a = -a := by
  rw [qNeg, ← Rat.neg_def]

/-- Python `round(q)` on the rational idealization of a float: round half to
even.  `f` is the floor; `r2 / (2 * den)` is the fractional part, compared
against one half by cross-multiplication so the kernel can evaluate it. -/
def pyRound (q : ℚ) : ℤ :=
  let f := Int.fdiv q.num (q.den : ℤ)
  let r2 := 2 * (q.num - f * (q.den : ℤ))
  if r2 < (q.den : ℤ) then f
  else if ((q.den : ℤ)) < r2 then f + 1
  else if f % 2 = 0 then f else f + 1

/-- Value of a string of decimal digits (most significant first). -/
def digitsToNat (l : Chars) : Nat :=
  l.foldl (fun a c => a * 10 + (c.toNat - '0'.toNat)) 0

/-- All characters are decimal digits. -/
def allDigits (l : Chars) : Bool := l.all Char.isDigit

/-- Split a character list on a separator character. -/
def splitOnChar (sep : Char) : Chars → List Chars
  | [] => [[]]
  | c :: rest =>
    match splitOnChar sep rest with
    | [] => [[c]]
    | h :: t => if c = sep then [] :: h :: t else (c :: h) :: t

/-- Unsigned body of Python `float(text)`: digits with an optional single
decimal point (exponents and specials are outside this development's inputs). -/
def parseDecimalBody (l : Chars) : Option ℚ :=
  match splitOnChar '.' l with
  | [ip] => if !ip.isEmpty && allDigits ip then some (((digitsToNat ip : ℤ) : ℚ)) else none
  | [ip, fp] =>
    if (!ip.isEmpty || !fp.isEmpty) && allDigits ip && allDigits fp then
      some (Rat.divInt ((digitsToNat ip : ℤ) * (10 : ℤ) ^ fp.length + (digitsToNat fp : ℤ))
        ((10 : ℤ) ^ fp.length))
    else none
  | _ => none

/-- Python `float(text)`: strip whitespace, then an optional sign and a
decimal body. -/
def parseDecimal (l : Chars) : Option ℚ :=
  match pyStrip l with
  | '-' :: rest => (parseDecimalBody rest).map qNeg
  | '+' :: rest => parseDecimalBody rest
  | rest => parseDecimalBody rest

/-- Python `int(text)`: strip whitespace, then an optional sign and a
non-empty digit string. -/
def parseIntStr (l : Chars) : Option ℤ :=
  match pyStrip l with
  | '-' :: rest =>
    if !rest.isEmpty && allDigits rest then some (-(digitsToNat rest : ℤ)) else none
  | '+' :: rest =>
    if !rest.isEmpty && allDigits rest then some ((digitsToNat rest : ℤ)) else none
  | rest =>
    if !rest.isEmpty && allDigits rest then some ((digitsToNat rest : ℤ)) else none

/-- `text.replace(",", ".")` from the amount parsers in `models.py`. -/
def commaToDot (s : Chars) : Chars := s.map (fun c => if c = ',' then '.' else c)

/-- `text.replace(",", "")` from the integer parsers in `models.py`. -/
def stripCommas (s : Chars) : Chars := s.filter (fun c => !(c = ','))

-- ============================================================================
-- constants.py
-- ============================================================================

def PLUSGIRO_CODE : Chars := "00".toList
def BANKGIRO_CODE : Chars := "05".toList
def EXPENSE_CODE : Chars := "09".toList
def CURRENCY : Chars := "SEK".toList
def RECORD_TYPE_HEADER : Chars := "MH00".toList
def RECORD_TYPE_TRAILER : Chars := "MT00".toList
def RECORD_TYPE_PAYMENT : Chars := "PI00".toList
def RECORD_TYPE_NOTE : Chars := "BA00".toList
def RECORD_TYPE_BENEFICIARY : Chars := "BE01".toList

/-- `" " * n`. -/
def spaces (n : Nat) : Chars := List.replicate n ' '

-- ============================================================================
-- formatters.py
-- ============================================================================

/-- `format_amount`: `str(round(amount * 100)).zfill(length)` — SEK to öre
(`qMul amount 100` is `amount * 100` by `qMul_eq`). -/
def format_amount (amount : ℚ) (length : Nat) : Chars :=
  pyZfill (pyIntStr (pyRound (qMul amount 100))) length

/-- `create_note`: `f"{activity} {description} {name}"`. -/
def create_note (activity description name : Chars) : Chars :=
  activity ++ ' ' :: description ++ ' ' :: name

/-- `create_message`: `f"{activity} {description}"`. -/
def create_message (activity description : Chars) : Chars :=
  activity ++ ' ' :: description

/-- `generate_start_line`: MH00 batch header. -/
def generate_start_line (org_number account_number : Chars) : Chars :=
  RECORD_TYPE_HEADER ++ spaces 8 ++ org_number ++ spaces 12
    ++ pyLjust account_number 10 ++ CURRENCY ++ spaces 6 ++ CURRENCY ++ spaces 24

/-- `generate_end_line`: MT00 batch trailer. -/
def generate_end_line (number_of_rows : Nat) (total_cost : ℚ) : Chars :=
  RECORD_TYPE_TRAILER ++ spaces 25 ++ pyZfill (pyIntStr (number_of_rows : ℤ)) 7
    ++ format_amount total_cost 15 ++ spaces 29

/-- `generate_pi00_expense`: PI00 payment line for a bank-account expense.
The wall-clock date of the source is injected as `today` (8 chars YYYYMMDD). -/
def generate_pi00_expense (today : Chars) (clearing_number account_number : ℤ)
    (amount : ℚ) (message : Chars) : Chars :=
  RECORD_TYPE_PAYMENT ++ EXPENSE_CODE
    ++ pyLjust (pyIntStr clearing_number) 5
    ++ pyLjust (pyIntStr account_number) 11
    ++ spaces 2 ++ today
    ++ format_amount amount 13
    ++ (pyLjust message 12).take 12
    ++ spaces 23

/-- `generate_pi00_giro`: PI00 payment line for a giro payment. -/
def generate_pi00_giro (today : Chars) (account_number : ℤ) (amount : ℚ)
    (ocr : Chars) (giro_code : Chars) : Chars :=
  RECORD_TYPE_PAYMENT ++ giro_code ++ spaces 5
    ++ pyLjust (pyIntStr account_number) 11
    ++ spaces 2 ++ today
    ++ format_amount amount 13
    ++ pyLjust ocr 25
    ++ spaces 10

/-- `generate_ba00`: BA00 note line, the note truncated to 18 and 35 chars. -/
def generate_ba00 (note : Chars) : Chars :=
  RECORD_TYPE_NOTE ++ (pyLjust note 18).take 18 ++ spaces 9
    ++ (pyLjust note 35).take 35 ++ spaces 14

/-- `generate_be01`: BE01 beneficiary line, the recipient left-justified
in a 58-wide field and never truncated. -/
def generate_be01 (recipient : Chars) : Chars :=
  RECORD_TYPE_BENEFICIARY ++ spaces 18 ++ pyLjust recipient 58

-- ============================================================================
-- models.py — raw cell values and pydantic row models
-- ============================================================================

/-- A raw spreadsheet cell as Python sees it.  `float` cells are idealized as
exact rationals; `none` is Python `None` (a missing cell). -/
inductive PyValue where
  | bool : Bool → PyValue
  | int : ℤ → PyValue
  | float : ℚ → PyValue
  | str : Chars → PyValue
  | none : PyValue
deriving DecidableEq

/-- Python truthiness `bool(v)` for the cell values modelled here. -/
def pyTruthy : PyValue → Bool
  | .bool b => b
  | .int n => decide (n ≠ 0)
  | .float q => decide (q ≠ 0)
  | .str s => !s.isEmpty
  | .none => false

/-- Stand-in for Python `str(float)` on the rational idealization (only
reached for non-string cells in string positions, which this development
never exercises). -/
def ratStr (q : ℚ) : Chars :=
  if q.den = 1 then pyIntStr q.num ++ ".0".toList
  else pyIntStr q.num ++ '/' :: pyIntStr (q.den : ℤ)

/-- Python `str(v)`. -/
def pyToStr : PyValue → Chars
  | .bool true => "True".toList
  | .bool false => "False".toList
  | .int n => pyIntStr n
  | .float q => ratStr q
  | .str s => s
  | .none => "None".toList

/-- `_parse_boolean` from `models.py`: booleans pass through, strings compare
their trimmed lower-casing with "true", everything else uses `bool(value)`. -/
def _parse_boolean (v : PyValue) : Bool :=
  match v with
  | .bool b => b
  | .str s => pyLower (pyStrip s) == "true".toList
  | v => pyTruthy v

/-- `parse_amount` from `models.py`: native numbers pass through (a Python
bool is an `int`), text is parsed with `float(str(v).replace(",", "."))`. -/
def parse_amount (v : PyValue) : Option ℚ :=
  match v with
  | .int n => some ((n : ℚ))
  | .float q => some q
  | .bool b => some (if b then 1 else 0)
  | .str s => parseDecimal (commaToDot s)
  | .none => Option.none

/-- `parse_integers` from `models.py`: native ints pass through, anything else
through `int(str(v).replace(",", "").strip())`; a bool survives the
`isinstance` check but pydantic then rejects it for an `int` field. -/
def parse_integers (v : PyValue) : Option ℤ :=
  match v with
  | .int n => some n
  | .bool _ => Option.none
  | v => parseIntStr (stripCommas (pyToStr v))

/-- `strip_strings` from `models.py`: `str(v).strip()`. -/
def strip_strings (v : PyValue) : Chars := pyStrip (pyToStr v)

/-- A validated `ExpenseRow` (pydantic model from `models.py`). -/
structure ExpenseRow where
  Godkant : Bool
  Utbetalt : Bool
  Belopp : ℚ
  Verksamhet : Chars
  Clearingnummer : ℤ
  Kontonummer : ℤ
  Ditt_namn : Chars
  Kort_beskrivning_av_kop : Chars
deriving DecidableEq

/-- A validated `InvoiceRow` (pydantic model from `models.py`); the
`Mottagarkontotyp` field is restricted to the two literals by validation. -/
structure InvoiceRow where
  Godkant : Bool
  Utbetalt : Bool
  Belopp : ℚ
  Verksamhet : Chars
  Mottagarkontotyp : Chars
  Mottagarkontonummer : ℤ
  OCR_meddelande : Chars
  Ditt_namn : Chars
  Kort_beskrivning_av_kop : Chars
  Mottagare_namn : Chars
deriving DecidableEq

/-- A raw expense row: the column-name → cell mapping fed to the validator. -/
structure RawExpenseRow where
  Godkant : PyValue
  Utbetalt : PyValue
  Belopp : PyValue
  Verksamhet : PyValue
  Clearingnummer : PyValue
  Kontonummer : PyValue
  Ditt_namn : PyValue
  Kort_beskrivning_av_kop : PyValue

/-- A raw invoice row. -/
structure RawInvoiceRow where
  Godkant : PyValue
  Utbetalt : PyValue
  Belopp : PyValue
  Verksamhet : PyValue
  Mottagarkontotyp : PyValue
  Mottagarkontonummer : PyValue
  OCR_meddelande : PyValue
  Ditt_namn : PyValue
  Kort_beskrivning_av_kop : PyValue
  Mottagare_namn : PyValue

-- ============================================================================
-- validators.py
-- ============================================================================

/-- `validate_expense`: build the pydantic `ExpenseRow` (None on a field
validation error), then drop rows whose `Godkant` is false. -/
def validate_expense (row : RawExpenseRow) : Option ExpenseRow :=
  match parse_amount row.Belopp, parse_integers row.Clearingnummer,
      parse_integers row.Kontonummer with
  | some belopp, some clearing, some konto =>
    let e : ExpenseRow :=
      { Godkant := _parse_boolean row.Godkant
        Utbetalt := _parse_boolean row.Utbetalt
        Belopp := belopp
        Verksamhet := strip_strings row.Verksamhet
        Clearingnummer := clearing
        Kontonummer := konto
        Ditt_namn := strip_strings row.Ditt_namn
        Kort_beskrivning_av_kop := strip_strings row.Kort_beskrivning_av_kop }
    if e.Godkant then some e else Option.none
  | _, _, _ => Option.none

/-- `validate_invoice`: build the pydantic `InvoiceRow`; the
`Literal["Plusgiro", "Bankgiro"]` annotation rejects any other account type. -/
def validate_invoice (row : RawInvoiceRow) : Option InvoiceRow :=
  match parse_amount row.Belopp, parse_integers row.Mottagarkontonummer with
  | some belopp, some nr =>
    let typ := strip_strings row.Mottagarkontotyp
    if typ = "Plusgiro".toList ∨ typ = "Bankgiro".toList then
      let i : InvoiceRow :=
        { Godkant := _parse_boolean row.Godkant
          Utbetalt := _parse_boolean row.Utbetalt
          Belopp := belopp
          Verksamhet := strip_strings row.Verksamhet
          Mottagarkontotyp := typ
          Mottagarkontonummer := nr
          OCR_meddelande := strip_strings row.OCR_meddelande
          Ditt_namn := strip_strings row.Ditt_namn
          Kort_beskrivning_av_kop := strip_strings row.Kort_beskrivning_av_kop
          Mottagare_namn := strip_strings row.Mottagare_namn }
      if i.Godkant then some i else Option.none
    else Option.none
  | _, _ => Option.none

-- ============================================================================
-- payment_generator.py
-- ============================================================================

/-- `generate_lines_for_expense`: PI00 + BA00 + BE01 for one expense. -/
def generate_lines_for_expense (today : Chars) (expense : ExpenseRow) : List Chars :=
  [generate_pi00_expense today expense.Clearingnummer expense.Kontonummer expense.Belopp
    (create_message expense.Verksamhet expense.Kort_beskrivning_av_kop),
   generate_ba00
    (create_note expense.Verksamhet expense.Kort_beskrivning_av_kop expense.Ditt_namn),
   generate_be01 expense.Ditt_namn]

/-- `generate_lines_for_invoice`: PI00 + BA00 + BE01 for one invoice; the giro
sub-code is "00" for Plusgiro and "05" otherwise. -/
def generate_lines_for_invoice (today : Chars) (invoice : InvoiceRow) : List Chars :=
  let giro_code :=
    if invoice.Mottagarkontotyp = "Plusgiro".toList then PLUSGIRO_CODE else BANKGIRO_CODE
  [generate_pi00_giro today invoice.Mottagarkontonummer invoice.Belopp
    invoice.OCR_meddelande giro_code,
   generate_ba00
    (create_note invoice.Verksamhet invoice.Kort_beskrivning_av_kop invoice.Ditt_namn),
   generate_be01 invoice.Mottagare_namn]

-- ============================================================================
-- main.py — batch assembly and writer
-- ============================================================================

/-- Expense half of `process_payments` in `main.py`: rows whose parsed
`Utbetalt` is true are filtered out first; each validated row appends its
three lines and adds `Belopp` (exact rational `+` via `qAdd`) to the total. -/
def processExpenses (today : Chars) : List RawExpenseRow → List Chars × Nat × ℚ
  | [] => ([], 0, 0)
  | row :: rest =>
    let r := processExpenses today rest
    if _parse_boolean row.Utbetalt then r
    else
      match validate_expense row with
      | some e => (generate_lines_for_expense today e ++ r.1, r.2.1 + 1, qAdd r.2.2 e.Belopp)
      | Option.none => r

/-- Invoice half of `process_payments` in `main.py`. -/
def processInvoices (today : Chars) : List RawInvoiceRow → List Chars × Nat × ℚ
  | [] => ([], 0, 0)
  | row :: rest =>
    let r := processInvoices today rest
    if _parse_boolean row.Utbetalt then r
    else
      match validate_invoice row with
      | some i => (generate_lines_for_invoice today i ++ r.1, r.2.1 + 1, qAdd r.2.2 i.Belopp)
      | Option.none => r

/-- `process_payments` from `main.py`: expenses first, then invoices, with
line buffer, accepted-row count and major-unit total accumulated. -/
def process_payments (today : Chars) (expenses : List RawExpenseRow)
    (invoices : List RawInvoiceRow) : List Chars × Nat × ℚ :=
  ((processExpenses today expenses).1 ++ (processInvoices today invoices).1,
   (processExpenses today expenses).2.1 + (processInvoices today invoices).2.1,
   qAdd (processExpenses today expenses).2.2 (processInvoices today invoices).2.2)

/-- The file-emitting tail of `main()` in `main.py`: if no record was
accepted, return without writing; otherwise wrap the lines in header and
trailer.  `Option.none` models "no file written". -/
def mainOutput (today org_number account_number : Chars)
    (expenses : List RawExpenseRow) (invoices : List RawInvoiceRow) :
    Option (List Chars) :=
  let r := process_payments today expenses invoices
  if r.2.1 = 0 then Option.none
  else some (generate_start_line org_number account_number :: r.1
    ++ [generate_end_line r.2.1 r.2.2])

/-- `write_po3_file` serialization: `"\n".join(lines)`. -/
def newlineJoin : List Chars → Chars
  | [] => []
  | [l] => l
  | l :: l2 :: ls => l ++ '\n' :: newlineJoin (l2 :: ls)

/-- `write_po3_file` from `main.py`, reduced to its serialization of the line
sequence (the path/encoding side effects are outside the embedding). -/
def write_po3_file (lines : List Chars) : Chars := newlineJoin lines

-- ============================================================================
-- config.py
-- ============================================================================

/-- `Config`: organization and account number (text from the environment). -/
structure Config where
  org_number : Chars
  account_number : Chars
deriving DecidableEq

/-- `Config._get_required`: a missing or empty environment value is an error
(`Option.none`); no other validation is applied. -/
def _get_required (value : Option Chars) : Option Chars :=
  match value with
  | Option.none => Option.none
  | some s => if s.isEmpty then Option.none else some s

/-- `Config.__init__` restricted to the two fields the encoder consumes. -/
def mkConfig (org acct : Option Chars) : Option Config :=
  match _get_required org, _get_required acct with
  | some o, some a => some { org_number := o, account_number := a }
  | _, _ => Option.none

-- ============================================================================
-- create_po3.py — the legacy monolith (invoice path)
-- ============================================================================

/-- A raw invoice row as the legacy `create_po3.py` sees it, with the
numeric columns already typed by `pandas` (CSV numeric columns load as
numbers) and the free-text columns as text. -/
structure LegacyInvoiceRow where
  Godkant : PyValue
  Belopp : ℚ
  Verksamhet : Chars
  Ditt_namn : Chars
  Kort_beskrivning_av_kop : Chars
  Mottagarkontotyp : PyValue
  Mottagarkontonummer : ℤ
  OCR_meddelande : Chars
  Mottagare_namn : Chars

/-- Python `==` between a cell and a string literal: true only for an equal
string. -/
def pyEqStr (v : PyValue) (s : Chars) : Bool :=
  match v with
  | .str t => t == s
  | _ => false

/-- `pd.isna` on the modelled cells. -/
def pd_isna : PyValue → Bool
  | .none => true
  | _ => false

/-- `validate_row` from `create_po3.py` on an invoice row: the approval flag
must be truthy and the amount, name, activity and description columns present
and non-blank.  The account type column is not inspected. -/
def legacy_validate_row (row : LegacyInvoiceRow) : Bool :=
  pyTruthy row.Godkant
    && !(pyStrip (ratStr row.Belopp)).isEmpty
    && !(pyStrip row.Ditt_namn).isEmpty
    && !(pyStrip row.Verksamhet).isEmpty
    && !(pyStrip row.Kort_beskrivning_av_kop).isEmpty

/-- `generate_lines_for_invoice` from `create_po3.py`: after `validate_row`,
the giro sub-code is "00" if the raw cell equals "Plusgiro" and "05" for
every other value. -/
def legacy_generate_lines_for_invoice (today : Chars) (row : LegacyInvoiceRow) :
    Option (List Chars) :=
  if legacy_validate_row row then
    let giro_code :=
      if pyEqStr row.Mottagarkontotyp ("Plusgiro".toList) then PLUSGIRO_CODE else BANKGIRO_CODE
    some [generate_pi00_giro today row.Mottagarkontonummer row.Belopp
        row.OCR_meddelande giro_code,
      generate_ba00 (create_note row.Verksamhet row.Kort_beskrivning_av_kop row.Ditt_namn),
      generate_be01 row.Mottagare_namn]
  else Option.none

-- sanity checks on concrete values
example : (generate_be01 ("X".toList)).length = 80 := by decide
example : pyRound (Rat.divInt 1 2) = 0 := by decide
example : pyRound (Rat.divInt 3 2) = 2 := by decide
example : pyRound (Rat.divInt 10254 10) = 1025 := by decide
example : parseDecimal ("10.254".toList) = some (Rat.divInt 10254 1000) := by decide
example : parseDecimal ("-1.5".toList) = some (Rat.divInt (-3) 2) := by decide
example : parseIntStr (" 3300 ".toList) = some 3300 := by decide
example : (generate_pi00_expense ("20250101".toList) 3300 1234567 150 ("m".toList)).length = 80 := by
  decide
example : generate_end_line 1 (Rat.divInt 150 1) =
    ("MT00                         0000001000000000015000                             ".toList) := by
  decide
/-- A well-formed raw expense row used in concrete checks. -/
def sampleExpenseRaw : RawExpenseRow :=
  { Godkant := .bool true
    Utbetalt := .bool false
    Belopp := .str ("150.00".toList)
    Verksamhet := .str ("Resa".toList)
    Clearingnummer := .int 3300
    Kontonummer := .int 1234567
    Ditt_namn := .str (" Anna ".toList)
    Kort_beskrivning_av_kop := .str ("Tag".toList) }

/-- The validated form of `sampleExpenseRaw`. -/
def sampleExpense : ExpenseRow :=
  { Godkant := true
    Utbetalt := false
    Belopp := Rat.divInt 150 1
    Verksamhet := "Resa".toList
    Clearingnummer := 3300
    Kontonummer := 1234567
    Ditt_namn := "Anna".toList
    Kort_beskrivning_av_kop := "Tag".toList }

/-- A raw invoice row whose account type is "Swish". -/
def sampleInvoiceSwish : RawInvoiceRow :=
  { Godkant := .str ("TRUE".toList)
    Utbetalt := .bool false
    Belopp := .str ("2500.50".toList)
    Verksamhet := .str ("V".toList)
    Mottagarkontotyp := .str ("Swish".toList)
    Mottagarkontonummer := .int 98765
    OCR_meddelande := .str ("OCR123".toList)
    Ditt_namn := .str ("Bo".toList)
    Kort_beskrivning_av_kop := .str ("K".toList)
    Mottagare_namn := .str ("X".toList) }

example : validate_expense sampleExpenseRaw = some sampleExpense := by decide
example : validate_invoice sampleInvoiceSwish = Option.none := by decide

-- ============================================================================
-- helper lemmas
-- ============================================================================

theorem length_spaces (n : Nat) : (spaces n).length = n := by
  simp [spaces]

theorem length_pyLjust (s : Chars) (w : Nat) : (pyLjust s w).length = max s.length w := by
  simp [pyLjust]
  omega

theorem length_take_pyLjust (s : Chars) (w : Nat) : ((pyLjust s w).take w).length = w := by
  simp [List.length_take, length_pyLjust]

theorem length_pyZfill (s : Chars) (w : Nat) : (pyZfill s w).length = max s.length w := by
  cases s with
  | nil => simp [pyZfill]
  | cons c rest =>
    simp only [pyZfill]
    split <;> simp <;> omega

theorem splitOnChar_ne_nil (sep : Char) (l : Chars) : splitOnChar sep l ≠ [] := by
  induction l with
  | nil => simp [splitOnChar]
  | cons c rest ih =>
    simp only [splitOnChar]
    split
    · simp
    · split <;> simp

theorem splitOnChar_of_not_mem (sep : Char) (l : Chars) (h : sep ∉ l) :
    splitOnChar sep l = [l] := by
  induction l with
  | nil => rfl
  | cons c rest ih =>
    have hc : ¬(c = sep) := fun hcs => h (hcs ▸ List.mem_cons_self c rest)
    have hrest : sep ∉ rest := fun hm => h (List.mem_cons_of_mem _ hm)
    simp only [splitOnChar, ih hrest]
    simp [hc]

theorem splitOnChar_append (sep : Char) (l m : Chars) (h : sep ∉ l) :
    splitOnChar sep (l ++ sep :: m) = l :: splitOnChar sep m := by
  induction l with
  | nil =>
    simp only [List.nil_append, splitOnChar]
    cases hm : splitOnChar sep m with
    | nil => exact absurd hm (splitOnChar_ne_nil sep m)
    | cons hd tl => simp
  | cons c rest ih =>
    have hc : ¬(c = sep) := fun hcs => h (hcs ▸ List.mem_cons_self c rest)
    have hrest : sep ∉ rest := fun hm => h (List.mem_cons_of_mem _ hm)
    simp only [List.cons_append, splitOnChar, List.append_eq]
    rw [ih hrest]
    simp [hc]

theorem length_generate_be01 (r : Chars) :
    (generate_be01 r).length = 22 + max r.length 58 := by
  have h4 : RECORD_TYPE_BENEFICIARY.length = 4 := by decide
  simp [generate_be01, List.length_append, length_pyLjust, length_spaces, h4]
  omega

-- ============================================================================
-- claims
-- ============================================================================

/-- Claim C8: the writer serializes the finalized line sequence by joining
with a single newline, no trailing newline is appended, and no line is
altered — expressed as: splitting the written text on newlines recovers the
lines exactly, for every non-empty newline-free line sequence. -/
theorem C8_writer_join : ∀ lines : List Chars, lines ≠ [] →
    (∀ l ∈ lines, '\n' ∉ l) →
    splitOnChar '\n' (write_po3_file lines) = lines
  | [], h, _ => absurd rfl h
  | [l], _, hnl => by
    simp only [write_po3_file, newlineJoin]
    exact splitOnChar_of_not_mem _ _ (hnl l (List.mem_cons_self _ _))
  | l :: l2 :: ls, _, hnl => by
    have h1 : '\n' ∉ l := hnl l (List.mem_cons_self _ _)
    have hstep : write_po3_file (l :: l2 :: ls) = l ++ '\n' :: write_po3_file (l2 :: ls) := rfl
    rw [hstep, splitOnChar_append _ _ _ h1,
      C8_writer_join (l2 :: ls) (by simp) (fun x hx => hnl x (List.mem_cons_of_mem _ hx))]

/-- Witness for C8 at a concrete two-line sequence. -/
theorem C8_writer_join_witness :
    splitOnChar '\n' (write_po3_file ["ab".toList, "c".toList]) = ["ab".toList, "c".toList] :=
  C8_writer_join _ (by decide) (by decide)

/-- Claim C9: `generate_be01` never truncates the recipient: the line is the
code, 18 spaces, then the name left-justified in a 58-wide field; the full
name is recoverable at offset 22, and a name longer than 58 characters makes
the line longer than 80. -/
theorem C9_generate_be01_never_truncates (r : Chars) :
    generate_be01 r = RECORD_TYPE_BENEFICIARY ++ spaces 18 ++ pyLjust r 58
    ∧ ((generate_be01 r).drop 22).take r.length = r
    ∧ (generate_be01 r).length = 22 + max r.length 58
    ∧ (58 < r.length → 80 < (generate_be01 r).length) := by
  have hlen : (generate_be01 r).length = 22 + max r.length 58 := length_generate_be01 r
  refine ⟨rfl, ?_, hlen, fun h => by omega⟩
  have hsplit : generate_be01 r
      = (RECORD_TYPE_BENEFICIARY ++ spaces 18) ++ (r ++ List.replicate (58 - r.length) ' ') := by
    simp [generate_be01, pyLjust, List.append_assoc]
  rw [hsplit, List.drop_left' (show (RECORD_TYPE_BENEFICIARY ++ spaces 18).length = 22 by decide),
    List.take_left]

/-- Witness for C9 at a 59-character recipient name. -/
theorem C9_generate_be01_never_truncates_witness :
    80 < (generate_be01 (List.replicate 59 'A')).length :=
  (C9_generate_be01_never_truncates (List.replicate 59 'A')).2.2.2 (by decide)

/-- Claim C10: whenever the account number is at most 10 characters, the MH00
header line has length `70 + length(org_number)`, so it is exactly 80 only
when the organization number is exactly 10 characters; and configuration
loading accepts any non-empty values — no length is validated. -/
theorem C10_start_line_length (org acct : Chars) (hacct : acct.length ≤ 10)
    (horg : org ≠ []) (hacct0 : acct ≠ []) :
    (generate_start_line org acct).length = 70 + org.length
    ∧ ((generate_start_line org acct).length = 80 ↔ org.length = 10)
    ∧ mkConfig (some org) (some acct)
      = some { org_number := org, account_number := acct } := by
  have hlen : (generate_start_line org acct).length = 60 + org.length + max acct.length 10 := by
    have h4 : RECORD_TYPE_HEADER.length = 4 := by decide
    have h3 : CURRENCY.length = 3 := by decide
    simp [generate_start_line, List.length_append, length_pyLjust, length_spaces, h4, h3]
    omega
  refine ⟨by omega, by constructor <;> (intro h; omega), ?_⟩
  have h1 : org.isEmpty = false := by simp [List.isEmpty_iff, horg]
  have h2 : acct.isEmpty = false := by simp [List.isEmpty_iff, hacct0]
  simp [mkConfig, _get_required, h1, h2]

/-- Witness for C10: a 3-character organization number and a 10-character
account number are accepted by configuration and give a 73-character header. -/
theorem C10_start_line_length_witness :
    (generate_start_line ("123".toList) ("1234567890".toList)).length
      = 70 + ("123".toList).length
    ∧ ((generate_start_line ("123".toList) ("1234567890".toList)).length = 80
      ↔ ("123".toList).length = 10)
    ∧ mkConfig (some ("123".toList)) (some ("1234567890".toList))
      = some { org_number := "123".toList, account_number := "1234567890".toList } :=
  C10_start_line_length _ _ (by decide) (by decide) (by decide)

theorem length_generate_pi00_expense (today : Chars) (c a : ℤ) (amt : ℚ) (msg : Chars) :
    (generate_pi00_expense today c a amt msg).length
      = 43 + today.length + max (pyIntStr c).length 5 + max (pyIntStr a).length 11
        + max (pyIntStr (pyRound (qMul amt 100))).length 13 := by
  have h4 : RECORD_TYPE_PAYMENT.length = 4 := by decide
  have h2 : EXPENSE_CODE.length = 2 := by decide
  simp [generate_pi00_expense, format_amount, List.length_append, length_pyLjust,
    length_pyZfill, length_spaces, length_take_pyLjust, h4, h2]
  omega

theorem length_generate_pi00_giro (today : Chars) (a : ℤ) (amt : ℚ) (ocr gc : Chars) :
    (generate_pi00_giro today a amt ocr gc).length
      = 21 + gc.length + today.length + max (pyIntStr a).length 11
        + max (pyIntStr (pyRound (qMul amt 100))).length 13 + max ocr.length 25 := by
  have h4 : RECORD_TYPE_PAYMENT.length = 4 := by decide
  simp [generate_pi00_giro, format_amount, List.length_append, length_pyLjust,
    length_pyZfill, length_spaces, h4]
  omega

theorem length_generate_ba00 (note : Chars) : (generate_ba00 note).length = 80 := by
  have h4 : RECORD_TYPE_NOTE.length = 4 := by decide
  simp only [generate_ba00, List.length_append, length_take_pyLjust, length_spaces, h4]

theorem take4_generate_pi00_expense (today : Chars) (c a : ℤ) (amt : ℚ) (msg : Chars) :
    (generate_pi00_expense today c a amt msg).take 4 = RECORD_TYPE_PAYMENT := by
  have h : generate_pi00_expense today c a amt msg
      = RECORD_TYPE_PAYMENT ++ (EXPENSE_CODE ++ (pyLjust (pyIntStr c) 5
        ++ (pyLjust (pyIntStr a) 11 ++ (spaces 2 ++ (today ++ (format_amount amt 13
        ++ ((pyLjust msg 12).take 12 ++ spaces 23))))))) := by
    simp [generate_pi00_expense, List.append_assoc]
  rw [h, List.take_left' (show RECORD_TYPE_PAYMENT.length = 4 by decide)]

theorem take4_generate_pi00_giro (today : Chars) (a : ℤ) (amt : ℚ) (ocr gc : Chars) :
    (generate_pi00_giro today a amt ocr gc).take 4 = RECORD_TYPE_PAYMENT := by
  have h : generate_pi00_giro today a amt ocr gc
      = RECORD_TYPE_PAYMENT ++ (gc ++ (spaces 5 ++ (pyLjust (pyIntStr a) 11
        ++ (spaces 2 ++ (today ++ (format_amount amt 13
        ++ (pyLjust ocr 25 ++ spaces 10))))))) := by
    simp [generate_pi00_giro, List.append_assoc]
  rw [h, List.take_left' (show RECORD_TYPE_PAYMENT.length = 4 by decide)]

theorem take4_generate_ba00 (note : Chars) :
    (generate_ba00 note).take 4 = RECORD_TYPE_NOTE := by
  have h : generate_ba00 note
      = RECORD_TYPE_NOTE ++ ((pyLjust note 18).take 18 ++ (spaces 9
        ++ ((pyLjust note 35).take 35 ++ spaces 14))) := by
    simp [generate_ba00, List.append_assoc]
  rw [h, List.take_left' (show RECORD_TYPE_NOTE.length = 4 by decide)]

theorem take4_generate_be01 (recipient : Chars) :
    (generate_be01 recipient).take 4 = RECORD_TYPE_BENEFICIARY := by
  have h : generate_be01 recipient
      = RECORD_TYPE_BENEFICIARY ++ (spaces 18 ++ pyLjust recipient 58) := by
    simp [generate_be01, List.append_assoc]
  rw [h, List.take_left' (show RECORD_TYPE_BENEFICIARY.length = 4 by decide)]

/-- Reference date injected for the source's `datetime.now().strftime("%Y%m%d")`. -/
def today0 : Chars := "20250101".toList

/-- An eligible expense row whose payer name has 59 characters. -/
def c2row : RawExpenseRow :=
  { Godkant := .bool true
    Utbetalt := .bool false
    Belopp := .str ("150.00".toList)
    Verksamhet := .str ("Resa".toList)
    Clearingnummer := .int 3300
    Kontonummer := .int 1234567
    Ditt_namn := .str (List.replicate 59 'A')
    Kort_beskrivning_av_kop := .str ("Tag".toList) }

set_option maxRecDepth 8000 in
/-- Counterexample to claim C2 as stated: `c2row` is eligible (validation
accepts it), the encoding is three lines, but the beneficiary line has 81
characters, not 80. -/
theorem C2_counterexample_long_name :
    (validate_expense c2row).isSome = true
    ∧ (validate_expense c2row).map
        (fun e => (generate_lines_for_expense today0 e).map List.length)
      = some [80, 80, 81] := by decide

/-- Claim C2 (amended): every eligible record encodes to exactly three lines
— payment, note, beneficiary, in that order — and each line is exactly 80
characters provided the rendered identifiers fit their columns (clearing ≤ 5,
account ≤ 11 digits), the minor-unit amount has at most 13 digits, the OCR
text at most 25 characters and the recipient name at most 58 characters. -/
theorem C2_amended_triplet :
    (∀ (today : Chars) (e : ExpenseRow), today.length = 8 →
      (pyIntStr e.Clearingnummer).length ≤ 5 →
      (pyIntStr e.Kontonummer).length ≤ 11 →
      (pyIntStr (pyRound (qMul e.Belopp 100))).length ≤ 13 →
      e.Ditt_namn.length ≤ 58 →
      (generate_lines_for_expense today e).map List.length = [80, 80, 80]
      ∧ (generate_lines_for_expense today e).map (fun l => l.take 4)
        = [RECORD_TYPE_PAYMENT, RECORD_TYPE_NOTE, RECORD_TYPE_BENEFICIARY])
    ∧ (∀ (today : Chars) (i : InvoiceRow), today.length = 8 →
      (pyIntStr i.Mottagarkontonummer).length ≤ 11 →
      (pyIntStr (pyRound (qMul i.Belopp 100))).length ≤ 13 →
      i.OCR_meddelande.length ≤ 25 →
      i.Mottagare_namn.length ≤ 58 →
      (generate_lines_for_invoice today i).map List.length = [80, 80, 80]
      ∧ (generate_lines_for_invoice today i).map (fun l => l.take 4)
        = [RECORD_TYPE_PAYMENT, RECORD_TYPE_NOTE, RECORD_TYPE_BENEFICIARY]) := by
  constructor
  · intro today e htoday hc ha hamt hname
    constructor
    · simp only [generate_lines_for_expense, List.map_cons, List.map_nil,
        length_generate_pi00_expense, length_generate_ba00]
      rw [length_generate_be01]
      simp only [List.cons.injEq, and_true]
      rw [max_eq_right hc, max_eq_right ha, max_eq_right hamt, max_eq_right hname]
      exact ⟨by omega, trivial, by omega⟩
    · simp only [generate_lines_for_expense, List.map_cons, List.map_nil,
        take4_generate_pi00_expense, take4_generate_ba00, take4_generate_be01]
  · intro today i htoday ha hamt hocr hname
    have hgc : (if i.Mottagarkontotyp = "Plusgiro".toList
        then PLUSGIRO_CODE else BANKGIRO_CODE).length = 2 := by
      split <;> decide
    constructor
    · simp only [generate_lines_for_invoice, List.map_cons, List.map_nil,
        length_generate_pi00_giro, length_generate_ba00, length_generate_be01, hgc]
      simp only [List.cons.injEq, and_true]
      rw [max_eq_right ha, max_eq_right hamt, max_eq_right hocr, max_eq_right hname]
      exact ⟨by omega, trivial, by omega⟩
    · simp only [generate_lines_for_invoice, List.map_cons, List.map_nil,
        take4_generate_pi00_giro, take4_generate_ba00, take4_generate_be01]

/-- Witness for the amended C2 at the scratch expense and a Plusgiro invoice. -/
theorem C2_amended_triplet_witness :
    (generate_lines_for_expense today0 sampleExpense).map List.length = [80, 80, 80]
    ∧ (generate_lines_for_expense today0 sampleExpense).map (fun l => l.take 4)
      = [RECORD_TYPE_PAYMENT, RECORD_TYPE_NOTE, RECORD_TYPE_BENEFICIARY] :=
  C2_amended_triplet.1 today0 sampleExpense (by decide) (by decide) (by decide)
    (by decide) (by decide)

/-- An eligible expense row with a 6-digit clearing number (field width 5). -/
def c3row : RawExpenseRow :=
  { Godkant := .bool true
    Utbetalt := .bool false
    Belopp := .str ("10.00".toList)
    Verksamhet := .str ("V".toList)
    Clearingnummer := .int 123456
    Kontonummer := .int 1234567
    Ditt_namn := .str ("Bo".toList)
    Kort_beskrivning_av_kop := .str ("K".toList) }

/-- Counterexample to claim C3 as stated: a row whose clearing number has six
digits is accepted by validation (not rejected), and its payment line carries
the full six digits at the clearing column, overflowing to 81 characters. -/
theorem C3_counterexample_accepts_overwidth :
    (validate_expense c3row).isSome = true
    ∧ (validate_expense c3row).map
        (fun e => (((generate_lines_for_expense today0 e).headD []).drop 6).take 6)
      = some ("123456".toList)
    ∧ (validate_expense c3row).map
        (fun e => ((generate_lines_for_expense today0 e).headD []).length)
      = some 81 := by decide

set_option linter.unnecessarySeqFocus false in
/-- Claim C3 (amended): validation never inspects identifier widths — the
outcome of `validate_expense`/`validate_invoice` is unchanged under replacing
an identifier by one of any other width — and the encoder never truncates: the
full rendered identifier appears at its column, so an over-width clearing
number makes the payment line exceed 80 characters instead of being rejected. -/
theorem C3_amended_no_width_validation :
    (∀ (row : RawExpenseRow) (c c' : ℤ),
      (validate_expense { row with Clearingnummer := PyValue.int c }).isSome
        = (validate_expense { row with Clearingnummer := PyValue.int c' }).isSome
      ∧ (validate_expense { row with Kontonummer := PyValue.int c }).isSome
        = (validate_expense { row with Kontonummer := PyValue.int c' }).isSome)
    ∧ (∀ (row : RawInvoiceRow) (c c' : ℤ),
      (validate_invoice { row with Mottagarkontonummer := PyValue.int c }).isSome
        = (validate_invoice { row with Mottagarkontonummer := PyValue.int c' }).isSome)
    ∧ (∀ (today : Chars) (c a : ℤ) (amt : ℚ) (msg : Chars),
      ((generate_pi00_expense today c a amt msg).drop 6).take (pyIntStr c).length
        = pyIntStr c)
    ∧ (∀ (today : Chars) (c a : ℤ) (amt : ℚ) (msg : Chars), today.length = 8 →
      5 < (pyIntStr c).length → (pyIntStr a).length ≤ 11 →
      (pyIntStr (pyRound (qMul amt 100))).length ≤ 13 →
      80 < (generate_pi00_expense today c a amt msg).length) := by
  have hint : ∀ n : ℤ, parse_integers (PyValue.int n) = some n := fun n => rfl
  refine ⟨?_, ?_, ?_, ?_⟩
  · intro row c c'
    constructor <;>
      cases hpa : parse_amount row.Belopp <;>
      cases hpc : parse_integers row.Clearingnummer <;>
      cases hpk : parse_integers row.Kontonummer <;>
      cases hg : _parse_boolean row.Godkant <;>
      simp [validate_expense, hint, hpa, hpc, hpk, hg]
  · intro row c c'
    cases hpa : parse_amount row.Belopp <;>
      cases hg : _parse_boolean row.Godkant <;>
      simp [validate_invoice, hint, hpa, hg] <;>
      split <;> simp
  · intro today c a amt msg
    have h : generate_pi00_expense today c a amt msg
        = (RECORD_TYPE_PAYMENT ++ EXPENSE_CODE)
          ++ ((pyIntStr c ++ List.replicate (5 - (pyIntStr c).length) ' ')
            ++ (pyLjust (pyIntStr a) 11 ++ (spaces 2 ++ (today ++ (format_amount amt 13
              ++ ((pyLjust msg 12).take 12 ++ spaces 23)))))) := by
      simp [generate_pi00_expense, pyLjust, List.append_assoc]
    rw [h, List.drop_left' (show (RECORD_TYPE_PAYMENT ++ EXPENSE_CODE).length = 6 by decide),
      List.append_assoc, List.take_left]
  · intro today c a amt msg htoday hc ha hamt
    rw [length_generate_pi00_expense, max_eq_left (by omega : 5 ≤ (pyIntStr c).length),
      max_eq_right ha, max_eq_right hamt]
    omega

/-- Witness for the amended C3: widths 6 and 4 for the clearing number leave
validation unchanged, and the 6-digit clearing line is 81 characters long. -/
theorem C3_amended_no_width_validation_witness :
    ((validate_expense { c3row with Clearingnummer := PyValue.int 123456 }).isSome
      = (validate_expense { c3row with Clearingnummer := PyValue.int 3300 }).isSome)
    ∧ 80 < (generate_pi00_expense today0 123456 1234567 (Rat.divInt 10 1) ("V K".toList)).length :=
  ⟨(C3_amended_no_width_validation.1 c3row 123456 3300).1,
    C3_amended_no_width_validation.2.2.2 today0 123456 1234567 (Rat.divInt 10 1) ("V K".toList)
      (by decide) (by decide) (by decide) (by decide)⟩

theorem take6_generate_pi00_giro (today : Chars) (a : ℤ) (amt : ℚ) (ocr gc : Chars)
    (hgc : gc.length = 2) :
    (generate_pi00_giro today a amt ocr gc).take 6 = RECORD_TYPE_PAYMENT ++ gc := by
  have h4 : RECORD_TYPE_PAYMENT.length = 4 := by decide
  have h : generate_pi00_giro today a amt ocr gc
      = (RECORD_TYPE_PAYMENT ++ gc) ++ (spaces 5 ++ (pyLjust (pyIntStr a) 11
        ++ (spaces 2 ++ (today ++ (format_amount amt 13
          ++ (pyLjust ocr 25 ++ spaces 10)))))) := by
    simp [generate_pi00_giro, List.append_assoc]
  rw [h, List.take_left' (by simp [List.length_append, h4, hgc])]

/-- A legacy invoice row whose account type is "Swish" — neither of the two
recognized giro types. -/
def c4row : LegacyInvoiceRow :=
  { Godkant := .bool true
    Belopp := Rat.divInt 100 1
    Verksamhet := "V".toList
    Ditt_namn := "Bo".toList
    Kort_beskrivning_av_kop := "K".toList
    Mottagarkontotyp := .str ("Swish".toList)
    Mottagarkontonummer := 98765
    OCR_meddelande := "OCR1".toList
    Mottagare_namn := "X".toList }

/-- Counterexample to claim C4 as stated: the legacy `create_po3.py` path
accepts the "Swish" row (its `validate_row` never inspects the account type)
and encodes it with the Bankgiro sub-code "05" — a silent default. -/
theorem C4_counterexample_swish_defaults_to_bankgiro :
    legacy_validate_row c4row = true
    ∧ (legacy_generate_lines_for_invoice today0 c4row).map
        (fun ls => (ls.headD []).take 6)
      = some ("PI0005".toList) := by decide

/-- Claim C4 (amended): in the pydantic pipeline (`models.py`/`validators.py`,
used by `main.py`) an invoice row whose trimmed account type is neither
"Plusgiro" nor "Bankgiro" is rejected; but the legacy `create_po3.py` path
accepts such a row and substitutes the Bankgiro sub-code "05" for it. -/
theorem C4_amended_account_type :
    (∀ (row : RawInvoiceRow) (s : Chars), row.Mottagarkontotyp = PyValue.str s →
      pyStrip s ≠ "Plusgiro".toList → pyStrip s ≠ "Bankgiro".toList →
      validate_invoice row = Option.none)
    ∧ (∀ (today : Chars) (row : LegacyInvoiceRow),
      legacy_validate_row row = true →
      pyEqStr row.Mottagarkontotyp ("Plusgiro".toList) = false →
      (legacy_generate_lines_for_invoice today row).map (fun ls => (ls.headD []).take 6)
        = some (RECORD_TYPE_PAYMENT ++ BANKGIRO_CODE)) := by
  constructor
  · intro row s hrow h1 h2
    cases hpa : parse_amount row.Belopp <;>
      cases hpn : parse_integers row.Mottagarkontonummer <;>
      simp [validate_invoice, hpa, hpn, strip_strings, hrow, pyToStr]
    intro hor
    rcases hor with h | h
    · exact absurd h (by simpa using h1)
    · exact absurd h (by simpa using h2)
  · intro today row hval hcode
    simp only [legacy_generate_lines_for_invoice]
    rw [if_pos hval, if_neg (by simpa using hcode)]
    simp only [Option.map_some', List.headD_cons]
    rw [take6_generate_pi00_giro _ _ _ _ _ (by decide)]

/-- Witness for the amended C4: the "Swish" invoice is rejected by the
pydantic validator and encoded with sub-code "05" by the legacy path. -/
theorem C4_amended_account_type_witness :
    validate_invoice sampleInvoiceSwish = Option.none
    ∧ (legacy_generate_lines_for_invoice today0 c4row).map
        (fun ls => (ls.headD []).take 6)
      = some (RECORD_TYPE_PAYMENT ++ BANKGIRO_CODE) :=
  ⟨C4_amended_account_type.1 sampleInvoiceSwish ("Swish".toList) rfl (by decide) (by decide),
    C4_amended_account_type.2 today0 c4row (by decide) (by decide)⟩

/-- The boolean rule exactly as the spec words it: a value is true iff it is
the native boolean `true`, or it is a string whose trimmed lower-casing is
"true"; every other input is false.  Stated for comparison with the source's
`_parse_boolean`. -/
def spec_parse_boolean (v : PyValue) : Bool :=
  match v with
  | .bool b => b
  | .str s => pyLower (pyStrip s) == "true".toList
  | _ => false

/-- Counterexample to claim C5 as stated: the native integer 1 is mapped to
true by the source's `_parse_boolean` (Python truthiness), while the spec's
rule maps every non-bool non-string input to false. -/
theorem C5_counterexample_int_one :
    _parse_boolean (PyValue.int 1) = true
    ∧ spec_parse_boolean (PyValue.int 1) = false
    ∧ _parse_boolean (PyValue.int 1) ≠ spec_parse_boolean (PyValue.int 1) := by decide

/-- Claim C5 (amended): `_parse_boolean` maps a value to true iff it is the
native boolean true, or a string whose trimmed lower-casing is "true", or a
non-zero number — non-bool non-string inputs fall through to Python
truthiness rather than to false. -/
theorem C5_amended_boolean_rule (v : PyValue) :
    _parse_boolean v = true ↔
      (v = PyValue.bool true
       ∨ (∃ s, v = PyValue.str s ∧ pyLower (pyStrip s) = "true".toList)
       ∨ (∃ n : ℤ, v = PyValue.int n ∧ n ≠ 0)
       ∨ (∃ q : ℚ, v = PyValue.float q ∧ q ≠ 0)) := by
  cases v <;> simp [_parse_boolean, pyTruthy]

/-- The amount rule exactly as the spec words it: thousands-comma characters
are stripped and the remainder parsed as a decimal.  Stated for comparison
with the source's `parse_amount`. -/
def spec_parse_amount (v : PyValue) : Option ℚ :=
  match v with
  | .int n => some ((n : ℚ))
  | .float q => some q
  | .bool b => some (if b then 1 else 0)
  | .str s => parseDecimal (stripCommas s)
  | .none => Option.none

/-- Counterexample to claim C6 as stated: on the text "1,5" the source's
`parse_amount` yields 1.5 — the comma acts as a decimal separator — while
stripping thousands-commas as the spec words it would yield 15. -/
theorem C6_counterexample_comma_decimal :
    parse_amount (PyValue.str ("1,5".toList)) = some (Rat.divInt 3 2)
    ∧ spec_parse_amount (PyValue.str ("1,5".toList)) = some ((15 : ℚ))
    ∧ parse_amount (PyValue.str ("1,5".toList))
      ≠ spec_parse_amount (PyValue.str ("1,5".toList)) := by decide

/-- Claim C6 (amended): when an amount is given as text, each comma is
replaced by a decimal point before parsing — a comma in digit context IS
interpreted as a decimal separator, not stripped. -/
theorem C6_amended_comma_is_decimal_separator (a b : Chars)
    (ha : ∀ c ∈ a, c.isDigit) (hb : ∀ c ∈ b, c.isDigit) :
    parse_amount (PyValue.str (a ++ ',' :: b)) = parseDecimal (a ++ '.' :: b) := by
  have hmap : ∀ l : Chars, (∀ c ∈ l, c.isDigit) → commaToDot l = l := by
    intro l hl
    have hpt : ∀ x ∈ l, (if x = ',' then '.' else x) = x := by
      intro x hx
      by_cases hc : x = ','
      · subst hc
        exact absurd (hl ',' hx) (by decide)
      · simp [hc]
    exact (List.map_congr_left hpt).trans (List.map_id l)
  have hdist : commaToDot (a ++ ',' :: b) = commaToDot a ++ '.' :: commaToDot b := by
    simp [commaToDot]
  show parseDecimal (commaToDot (a ++ ',' :: b)) = parseDecimal (a ++ '.' :: b)
  rw [hdist, hmap a ha, hmap b hb]

/-- Witness for the amended C6: "1,5" parses exactly as "1.5" would. -/
theorem C6_amended_comma_is_decimal_separator_witness :
    parse_amount (PyValue.str (("1".toList) ++ ',' :: ("5".toList)))
      = parseDecimal (("1".toList) ++ '.' :: ("5".toList)) :=
  C6_amended_comma_is_decimal_separator _ _ (by decide) (by decide)

theorem processExpenses_lines_length (today : Chars) (rows : List RawExpenseRow) :
    (processExpenses today rows).1.length = 3 * (processExpenses today rows).2.1 := by
  induction rows with
  | nil => rfl
  | cons r rest ih =>
    simp only [processExpenses]
    split
    · exact ih
    · split
      · simp only [generate_lines_for_expense, List.length_append, List.length_cons,
          List.length_nil]
        omega
      · exact ih

theorem processInvoices_lines_length (today : Chars) (rows : List RawInvoiceRow) :
    (processInvoices today rows).1.length = 3 * (processInvoices today rows).2.1 := by
  induction rows with
  | nil => rfl
  | cons r rest ih =>
    simp only [processInvoices]
    split
    · exact ih
    · split
      · simp only [generate_lines_for_invoice, List.length_append, List.length_cons,
          List.length_nil]
        omega
      · exact ih

theorem process_payments_lines_length (today : Chars) (expenses : List RawExpenseRow)
    (invoices : List RawInvoiceRow) :
    (process_payments today expenses invoices).1.length
      = 3 * (process_payments today expenses invoices).2.1 := by
  simp only [process_payments, List.length_append, processExpenses_lines_length,
    processInvoices_lines_length]
  omega

/-- Claim C7: if no record was accepted from either source, no output file is
written at all; and every file that is written has at least five lines
(header, at least one three-line record, trailer) — so a header-and-trailer
only file is never produced. -/
theorem C7_empty_batch_writes_no_file (today org acct : Chars)
    (expenses : List RawExpenseRow) (invoices : List RawInvoiceRow) :
    ((process_payments today expenses invoices).2.1 = 0 →
      mainOutput today org acct expenses invoices = Option.none)
    ∧ (∀ f, mainOutput today org acct expenses invoices = some f → 5 ≤ f.length) := by
  constructor
  · intro h
    simp [mainOutput, h]
  · intro f hf
    by_cases h : (process_payments today expenses invoices).2.1 = 0
    · simp [mainOutput, h] at hf
    · simp only [mainOutput, if_neg h, Option.some.injEq] at hf
      have hlen := process_payments_lines_length today expenses invoices
      rw [← hf]
      simp only [List.length_cons, List.length_append, List.length_nil]
      omega

/-- An expense row whose approval flag is false. -/
def c7row : RawExpenseRow :=
  { Godkant := .bool false
    Utbetalt := .bool false
    Belopp := .str ("10.00".toList)
    Verksamhet := .str ("V".toList)
    Clearingnummer := .int 3300
    Kontonummer := .int 1234567
    Ditt_namn := .str ("Bo".toList)
    Kort_beskrivning_av_kop := .str ("K".toList) }

/-- Witness for C7: a batch whose only row is unapproved writes no file. -/
theorem C7_empty_batch_writes_no_file_witness :
    mainOutput today0 ("5566778899".toList) ("12345".toList) [c7row] [] = Option.none :=
  (C7_empty_batch_writes_no_file today0 ("5566778899".toList) ("12345".toList)
    [c7row] []).1 (by decide)

-- ============================================================================
-- claim C1: trailer total versus per-line minor units
-- ============================================================================

/-- An approved, unpaid expense of 10.254 SEK (amount given as text). -/
def c1row : RawExpenseRow :=
  { Godkant := .bool true
    Utbetalt := .bool false
    Belopp := .str ("10.254".toList)
    Verksamhet := .str ("Resa".toList)
    Clearingnummer := .int 3300
    Kontonummer := .int 1234567
    Ditt_namn := .str ("Anna".toList)
    Kort_beskrivning_av_kop := .str ("Tag".toList) }

/-- The minor-unit amount field of an expense PI00 line (columns 33-45). -/
def pi00AmountField (line : Chars) : Nat := digitsToNat ((line.drop 32).take 13)

/-- The minor-unit total field of the MT00 trailer line (columns 37-51). -/
def mt00TotalField (line : Chars) : Nat := digitsToNat ((line.drop 36).take 15)

/-- The PI00 payment lines of a file. -/
def pi00Lines (ls : List Chars) : List Chars :=
  ls.filter (fun l => l.take 4 == RECORD_TYPE_PAYMENT)

set_option maxRecDepth 8000 in
/-- Claim C1 fails on the code: for the batch of two 10.254 SEK expenses the
emitted PI00 amount fields each hold 1025 öre (10.254 × 100 = 1025.4 rounds
down), but the trailer total field holds 2051 öre — the single rounding of
the summed major units 20.508 — and 1025 + 1025 = 2050 ≠ 2051. -/
theorem C1_trailer_single_rounding :
    (mainOutput today0 ("5566778899".toList) ("12345".toList) [c1row, c1row] []).map
        (fun ls => (mt00TotalField (ls.getLastD []), (pi00Lines ls).map pi00AmountField))
      = some (2051, [1025, 1025])
    ∧ 1025 + 1025 ≠ 2051 := by decide
